import Mathlib

/-!
Shallow embedding of the inventory backend (Express + Mongoose, src/index.js
and the historical generations in src/unnamed/part_000 .. part_003).

Numbers are modelled as exact rationals (ℚ): the JavaScript sources only
add, subtract and multiply finite decimal inputs, and every claim is about
the algebraic structure of those computations.  `parseFloat` is modelled on
its sign / digits / decimal-point fragment (exponent and Infinity forms do
not occur in the data this backend handles); NaN is modelled as `Option.none`.
A JavaScript value that may be a number, a string or `undefined` is the
inductive `JsVal`; `undefined`/`null` are both `JsVal.undef` (the code never
distinguishes them).
-/

namespace Inventory

/-- A JavaScript value as stored in a Mongo document field: absent
(`undefined`/`null`), a number, or a string. -/
inductive JsVal where
  | undef : JsVal
  | num : ℚ → JsVal
  | str : String → JsVal
deriving DecidableEq

/-- JavaScript truthiness of a `JsVal`: `undefined`, `0` and `""` are falsy. -/
def JsVal.truthy : JsVal → Bool
  | JsVal.undef => false
  | JsVal.num q => decide (q ≠ 0)
  | JsVal.str s => decide (s ≠ "")

/-- Whitespace skipped by JavaScript numeric conversions. -/
def jsWhitespace (c : Char) : Bool :=
  c == ' ' || c == '\t' || c == '\n' || c == '\r'

/-- JavaScript `String.prototype.trim()`: drop leading and trailing
whitespace. -/
def strTrim (s : String) : String :=
  String.mk (((s.data.dropWhile Char.isWhitespace).reverse.dropWhile
    Char.isWhitespace).reverse)

/-- JavaScript `String.prototype.toLowerCase()` (ASCII case folding). -/
def strLower (s : String) : String := String.mk (s.data.map Char.toLower)

/-- JavaScript `String.prototype.toUpperCase()` (ASCII case folding). -/
def strUpper (s : String) : String := String.mk (s.data.map Char.toUpper)

/-- Numeric value of a decimal digit character. -/
def digitVal (c : Char) : Nat := c.toNat - 48

/-- Value of a list of decimal digit characters, most significant first. -/
def digitsToNat (ds : List Char) : Nat :=
  ds.foldl (fun a c => a * 10 + digitVal c) 0

/-- Parse an unsigned decimal number (`digits`, `digits.digits`, `.digits`,
`digits.`) from the front of a character list, returning the value and the
unconsumed remainder; `none` when no digit is found. -/
def parseUnsignedNum (cs : List Char) : Option (ℚ × List Char) :=
  let ip := cs.takeWhile Char.isDigit
  let r1 := cs.dropWhile Char.isDigit
  match r1 with
  | c :: r2 =>
      if c = '.' then
        let fp := r2.takeWhile Char.isDigit
        let r3 := r2.dropWhile Char.isDigit
        if ip.isEmpty && fp.isEmpty then none
        else some ((digitsToNat ip : ℚ) + (digitsToNat fp : ℚ) / (10 ^ fp.length), r3)
      else if ip.isEmpty then none else some ((digitsToNat ip : ℚ), c :: r2)
  | [] => if ip.isEmpty then none else some ((digitsToNat ip : ℚ), [])

/-- Parse an optionally signed decimal number from the front of a character
list. -/
def parseSignedNum (cs : List Char) : Option (ℚ × List Char) :=
  match cs with
  | [] => parseUnsignedNum []
  | c :: r =>
      if c = '-' then (parseUnsignedNum r).map (fun p => (-p.1, p.2))
      else if c = '+' then parseUnsignedNum r
      else parseUnsignedNum (c :: r)

/-- JavaScript `parseFloat` on a string (decimal fragment): skip leading
whitespace, read the longest signed decimal prefix; `none` models `NaN`. -/
def jsParseFloat (s : String) : Option ℚ :=
  (parseSignedNum (s.data.dropWhile jsWhitespace)).map Prod.fst

/-- JavaScript `Number(string)`: the whole (trimmed) string must be a decimal
number; the empty/blank string converts to `0`; `none` models `NaN`. -/
def jsNumberStr (s : String) : Option ℚ :=
  let t := ((s.data.dropWhile jsWhitespace).reverse.dropWhile jsWhitespace).reverse
  if t.isEmpty then some 0
  else
    match parseSignedNum t with
    | some (q, []) => some q
    | _ => none

/-- JavaScript `Number(v)` on a `JsVal` (`Number(undefined)` is `NaN`). -/
def jsNumber : JsVal → Option ℚ
  | JsVal.undef => none
  | JsVal.num q => some q
  | JsVal.str s => jsNumberStr s

/-- JavaScript `parseFloat(v)` on a `JsVal`: a number stringifies to its plain
decimal form and parses back to itself; `parseFloat(undefined)` is `NaN`. -/
def parseFloatVal : JsVal → Option ℚ
  | JsVal.undef => none
  | JsVal.num q => some q
  | JsVal.str s => jsParseFloat s

/-- The cleaning step `String(rawAlt).replace(/[^\d.-]/g, '')` of
src/index.js line 67: delete every character that is not a digit, a dot or a
minus sign. -/
def cleanNumStr (s : String) : String :=
  String.mk (s.data.filter (fun c => c.isDigit || c == '.' || c == '-'))

/-- The altQty coercion of src/index.js lines 67-68 on a string value:
clean, then `parseFloat(...) || 0`. -/
def altCoerceClean (s : String) : ℚ :=
  (jsParseFloat (cleanNumStr s)).getD 0

/-- The altQty coercion of src/unnamed/part_002 lines 66-67 on a string
value: `parseFloat(String(rawAlt)) || 0` with no cleaning. -/
def altParsePlain (s : String) : ℚ :=
  (jsParseFloat s).getD 0

/-- Truthiness of an optional string field (absent and `""` are falsy). -/
def strTruthy : Option String → Bool
  | some s => decide (s ≠ "")
  | none => false

/-- `parseFloat(item.factor)` where `factor` may be absent. -/
def parseFactor : Option String → Option ℚ
  | some s => jsParseFloat s
  | none => none

/-- An Item document (itemSchema of src/index.js lines 21-27): `factor` is a
string-typed field that may be absent. -/
structure Item where
  id : Nat
  name : String
  unit : String
  altUnit : String
  factor : Option String
  alertQty : Int
deriving DecidableEq

/-- A Transaction document (transactionSchema of src/index.js lines 30-40,
plus the legacy `altQuantity` field read at line 66): `type` may be absent,
`quantity`/`altQty` may hold numbers or legacy strings. -/
structure Txn where
  id : Nat
  date : String
  type : Option String
  itemName : String
  quantity : JsVal
  altQty : JsVal
  altQuantity : JsVal
deriving DecidableEq

/-- Type normalization of src/index.js line 62:
`t.type ? t.type.toUpperCase().trim() : "IN"` (absent or empty type falls
back to `"IN"`). -/
def normType : Option String → String
  | some s => if s = "" then "IN" else strTrim (strUpper s)
  | none => "IN"

/-- Whether the reduce of src/index.js treats a transaction as inbound
(line 70: `type === 'IN'`). -/
def isIN (t : Txn) : Bool := normType t.type == "IN"

/-- Quantity coercion of src/index.js line 63: `parseFloat(t.quantity) || 0`. -/
def txnQty (t : Txn) : ℚ := (parseFloatVal t.quantity).getD 0

/-- Fallback chain of src/index.js line 66:
`t.altQty || t.altQuantity || "0"`. -/
def rawAlt (t : Txn) : JsVal :=
  if t.altQty.truthy then t.altQty
  else if t.altQuantity.truthy then t.altQuantity
  else JsVal.str "0"

/-- Alt-quantity coercion of src/index.js lines 66-68:
`parseFloat(String(rawAlt).replace(/[^\d.-]/g, '')) || 0`.  For a stored
number the stringify/clean/parse round trip returns the number itself. -/
def txnAltVal (t : Txn) : ℚ :=
  match rawAlt t with
  | JsVal.str s => altCoerceClean s
  | JsVal.num q => q
  | JsVal.undef => 0

/-- Name matcher of src/index.js lines 53-58: the item's name is trimmed,
escaped literally and matched by the anchored case-insensitive regex
`^name$` against the stored `itemName`, which is NOT trimmed. -/
def nameMatches (itemName txnName : String) : Bool :=
  strLower txnName == strLower (strTrim itemName)

/-- The transactions the matcher associates with an item (the
`Transaction.find` of src/index.js lines 56-58). -/
def matchedTxns (item : Item) (txns : List Txn) : List Txn :=
  txns.filter (fun t => nameMatches item.name t.itemName)

/-- One step of the reduce of src/index.js lines 61-78. -/
def statsStep (acc : ℚ × ℚ) (t : Txn) : ℚ × ℚ :=
  if isIN t then (acc.1 + txnQty t, acc.2 + txnAltVal t)
  else (acc.1 - txnQty t, acc.2 - txnAltVal t)

/-- The `stats` accumulator of src/index.js lines 61-78: fold the matched
transactions from `{ primary: 0, alt: 0 }`. -/
def itemStats (item : Item) (txns : List Txn) : ℚ × ℚ :=
  (matchedTxns item txns).foldl statsStep (0, 0)

/-- The signed primary contribution of one transaction. -/
def signedQty (t : Txn) : ℚ := if isIN t then txnQty t else -txnQty t

/-- The signed alternate contribution of one transaction. -/
def signedAlt (t : Txn) : ℚ := if isIN t then txnAltVal t else -txnAltVal t

/-- The `(quantity, altQuantity)` pair returned for one item by
GET /api/items of src/index.js lines 48-99, including the backup calculation
of lines 80-89: when the alternate sum is 0, the primary sum is non-zero and
the item's factor is a truthy string parsing to a number, the alternate
quantity is replaced by `primary * factor`. -/
def listItemQty (item : Item) (txns : List Txn) : ℚ × ℚ :=
  let stats := itemStats item txns
  if stats.2 = 0 ∧ stats.1 ≠ 0 ∧ strTruthy item.factor then
    match parseFactor item.factor with
    | some f => (stats.1, stats.1 * f)
    | none => stats
  else stats

/-- The full GET /api/items response: each item with its computed quantity
and altQuantity. -/
def listItems (items : List Item) (txns : List Txn) : List (Item × ℚ × ℚ) :=
  items.map (fun item => (item, listItemQty item txns))

/-! State model: the two Mongo collections and the CRUD routes of
src/index.js, plus the transaction write path of src/unnamed/part_001. -/

/-- The persisted state: the Items and Transactions collections. -/
structure Store where
  items : List Item
  txns : List Txn
deriving DecidableEq

/-- How a route answers: a 2xx JSON success, or a caught error reported with
status 400 (the routes of src/index.js never answer 404). -/
inductive Resp where
  | ok : Resp
  | err400 : Resp
deriving DecidableEq

/-- The request body of a PUT /api/items/:id call. -/
structure ItemFields where
  name : String
  unit : String
  altUnit : String
  factor : Option String
  alertQty : Int
deriving DecidableEq

/-- The request body of a POST/PUT /api/transactions call. -/
structure TxnFields where
  date : String
  type : Option String
  itemName : String
  quantity : JsVal
  altQty : JsVal
  altQuantity : JsVal
deriving DecidableEq

/-- `findByIdAndUpdate` of an Item: replace the submitted fields, keep the
identifier. -/
def applyItemFields (it : Item) (f : ItemFields) : Item :=
  ⟨it.id, f.name, f.unit, f.altUnit, f.factor, f.alertQty⟩

/-- A Transaction document built from a request body and an identifier. -/
def mkTxn (i : Nat) (f : TxnFields) : Txn :=
  ⟨i, f.date, f.type, f.itemName, f.quantity, f.altQty, f.altQuantity⟩

/-- `Item.findByIdAndDelete`: remove the item with the given identifier. -/
def removeItemById (s : Store) (i : Nat) : Store :=
  { s with items := s.items.filter (fun it => !(it.id == i)) }

/-- `Transaction.deleteMany({ itemName: name })`: remove every transaction
whose stored itemName equals the name exactly. -/
def removeTxnsByName (s : Store) (n : String) : Store :=
  { s with txns := s.txns.filter (fun t => !(t.itemName == n)) }

/-- PUT /api/items/:id of src/index.js lines 115-126: fetch the old item,
update the item, and when the name changed rewrite every transaction whose
itemName equals the OLD name exactly to the new name.  A missing id makes
`updatedItem._doc` throw, answered as a caught 400 with no store change. -/
def renameOrUpdateItem (s : Store) (i : Nat) (f : ItemFields) : Resp × Store :=
  match s.items.find? (fun it => it.id == i) with
  | some oldItem =>
      (Resp.ok, Store.mk
        (s.items.map (fun it => if it.id == i then applyItemFields it f else it))
        (if oldItem.name ≠ f.name then
          s.txns.map (fun t =>
            if t.itemName == oldItem.name then { t with itemName := f.name } else t)
        else s.txns))
  | none => (Resp.err400, s)

/-- DELETE /api/items/:id of src/index.js lines 128-137: when the item
exists, delete its exact-name transactions and then the item; either way
answer the success message. -/
def deleteItem (s : Store) (i : Nat) : Resp × Store :=
  match s.items.find? (fun it => it.id == i) with
  | some it => (Resp.ok, removeItemById (removeTxnsByName s it.name) i)
  | none => (Resp.ok, s)

/-- POST /api/transactions of src/index.js lines 146-152: persist the
submitted fields as they are, with no alternate-quantity fill. -/
def createTransaction (s : Store) (newId : Nat) (f : TxnFields) : Resp × Store :=
  (Resp.ok, { s with txns := s.txns ++ [mkTxn newId f] })

/-- PUT /api/transactions/:id of src/index.js lines 154-159: replace the
fields of the matching transaction; a missing id makes `updatedTxn._doc`
throw, answered as a caught 400 with no store change. -/
def updateTransaction (s : Store) (i : Nat) (f : TxnFields) : Resp × Store :=
  if s.txns.any (fun t => t.id == i) then
    (Resp.ok, { s with txns := s.txns.map (fun t => if t.id == i then mkTxn i f else t) })
  else (Resp.err400, s)

/-- DELETE /api/transactions/:id of src/index.js lines 161-166: remove by
identifier unconditionally and answer the success message. -/
def deleteTransaction (s : Store) (i : Nat) : Resp × Store :=
  (Resp.ok, { s with txns := s.txns.filter (fun t => !(t.id == i)) })

/-- Descending insertion by date, modelling
`Transaction.find().sort({ date: -1 })`. -/
def insertByDate (t : Txn) : List Txn → List Txn
  | [] => [t]
  | u :: us => if t.date < u.date then u :: insertByDate t us else t :: u :: us

/-- GET /api/transactions of src/index.js lines 139-144: all transactions
ordered by date descending. -/
def listTransactions (s : Store) : List Txn :=
  s.txns.foldr insertByDate []

/-- The server-side fill `calculateAltQty` of src/unnamed/part_001 lines
103-115: keep a truthy non-zero submitted altQty (as `Number(...)`, `none`
modelling NaN); otherwise look the item up by exact name and use
`quantity × factor` when the factor is a truthy string other than "Manual"
and "-" that parses to a number; otherwise 0. -/
def calculateAltQty (items : List Item) (txnBody : TxnFields) : Option ℚ :=
  if txnBody.altQty.truthy && !(jsNumber txnBody.altQty == some 0) then
    jsNumber txnBody.altQty
  else
    match items.find? (fun it => it.name == txnBody.itemName) with
    | some item =>
        if strTruthy item.factor && !(item.factor == some "Manual")
            && !(item.factor == some "-") then
          match parseFactor item.factor with
          | some f => some (((parseFloatVal txnBody.quantity).getD 0) * f)
          | none => some 0
        else some 0
    | none => some 0

/-- A computed fill value written back into the `altQty` field
(NaN, i.e. `none`, is stored as a non-numeric value). -/
def numToVal : Option ℚ → JsVal
  | some q => JsVal.num q
  | none => JsVal.undef

/-- POST /api/transactions of src/unnamed/part_001 lines 117-125:
`payload.altQty = await calculateAltQty(payload)` before saving. -/
def createTransactionCalc (s : Store) (newId : Nat) (f : TxnFields) : Resp × Store :=
  (Resp.ok, { s with txns :=
    s.txns ++ [mkTxn newId { f with altQty := numToVal (calculateAltQty s.items f) }] })

/-- PUT /api/transactions/:id of src/unnamed/part_001 lines 127-134: the
same fill applied to the submitted payload before `findByIdAndUpdate`; a
missing id answers `null` with no store change. -/
def updateTransactionCalc (s : Store) (i : Nat) (f : TxnFields) : Resp × Store :=
  if s.txns.any (fun t => t.id == i) then
    (Resp.ok, { s with txns := s.txns.map (fun t =>
      if t.id == i then mkTxn i { f with altQty := numToVal (calculateAltQty s.items f) }
      else t) })
  else (Resp.ok, s)

/-! Evaluation lemmas for the reduce of GET /api/items. -/

/-- One reduce step adds the signed contributions of the transaction. -/
theorem statsStep_eq (acc : ℚ × ℚ) (t : Txn) :
    statsStep acc t = (acc.1 + signedQty t, acc.2 + signedAlt t) := by
  cases h : isIN t <;> simp [statsStep, signedQty, signedAlt, h, sub_eq_add_neg]

/-- The reduce from any accumulator adds the two signed sums. -/
theorem foldl_statsStep (l : List Txn) (a b : ℚ) :
    l.foldl statsStep (a, b) = (a + (l.map signedQty).sum, b + (l.map signedAlt).sum) := by
  induction l generalizing a b with
  | nil => simp
  | cons t l ih =>
      simp only [List.foldl_cons, statsStep_eq, List.map_cons, List.sum_cons]
      rw [ih]
      simp [add_assoc]

/-- The `stats` of GET /api/items are the signed sums over the matched
transactions. -/
theorem itemStats_eq (item : Item) (txns : List Txn) :
    itemStats item txns =
      (((matchedTxns item txns).map signedQty).sum,
       ((matchedTxns item txns).map signedAlt).sum) := by
  simpa using foldl_statsStep (matchedTxns item txns) 0 0

/-- The backup calculation never changes the primary quantity. -/
theorem listItemQty_fst (item : Item) (txns : List Txn) :
    (listItemQty item txns).1 = (itemStats item txns).1 := by
  rw [listItemQty]
  split
  · cases h : parseFactor item.factor <;> simp [h]
  · rfl

/-- A factor that parses to a number is a truthy string. -/
theorem parseFactor_truthy {f : Option String} {q : ℚ}
    (h : parseFactor f = some q) : strTruthy f = true := by
  match f with
  | none => simp [parseFactor] at h
  | some s =>
      simp only [strTruthy, decide_eq_true_eq]
      intro hs
      rw [hs] at h
      rw [show parseFactor (some "") = none from by decide] at h
      exact Option.noConfusion h

/-- Every member of a dropWhile result is a member of the original list. -/
theorem dropWhile_subset {p : Char → Bool} {l : List Char} {c : Char}
    (h : c ∈ l.dropWhile p) : c ∈ l :=
  (List.dropWhile_sublist p (l := l)).mem h

/-- Parsing an unsigned number fails on a digit-free character list. -/
theorem parseUnsignedNum_no_digit (cs : List Char)
    (h : ∀ c ∈ cs, c.isDigit = false) : parseUnsignedNum cs = none := by
  have h1 : cs.takeWhile Char.isDigit = [] := by
    cases cs with
    | nil => rfl
    | cons c cs' => simp [List.takeWhile_cons, h c (List.mem_cons_self c cs')]
  have h2 : cs.dropWhile Char.isDigit = cs := by
    cases cs with
    | nil => rfl
    | cons c cs' => simp [List.dropWhile_cons, h c (List.mem_cons_self c cs')]
  rw [parseUnsignedNum]
  rw [h1, h2]
  cases cs with
  | nil => rfl
  | cons c cs' =>
      by_cases hc : c = '.'
      · have h3 : cs'.takeWhile Char.isDigit = [] := by
          cases cs' with
          | nil => rfl
          | cons d cs'' =>
              simp [List.takeWhile_cons,
                h d (List.mem_cons_of_mem _ (List.mem_cons_self d cs''))]
        simp [hc, h3]
      · simp [hc]

/-- Parsing a signed number fails on a digit-free character list. -/
theorem parseSignedNum_no_digit (cs : List Char)
    (h : ∀ c ∈ cs, c.isDigit = false) : parseSignedNum cs = none := by
  rw [parseSignedNum.eq_def]
  cases cs with
  | nil => exact parseUnsignedNum_no_digit [] (by simp)
  | cons c r =>
      have hr : ∀ x ∈ r, x.isDigit = false :=
        fun x hx => h x (List.mem_cons_of_mem _ hx)
      by_cases h1 : c = '-'
      · simp [h1, parseUnsignedNum_no_digit r hr]
      · by_cases h2 : c = '+'
        · simp [h1, h2, parseUnsignedNum_no_digit r hr]
        · simp [h1, h2, parseUnsignedNum_no_digit (c :: r) h]

/-- Signed sums split into the inbound sum minus the outbound sum when all
types normalize to IN or OUT. -/
theorem sum_signed_eq_in_sub_out (l : List Txn)
    (h : ∀ t ∈ l, normType t.type = "IN" ∨ normType t.type = "OUT") :
    (l.map signedQty).sum =
      ((l.filter (fun t => normType t.type == "IN")).map txnQty).sum
        - ((l.filter (fun t => normType t.type == "OUT")).map txnQty).sum := by
  induction l with
  | nil => simp
  | cons t l ih =>
      have hl : ∀ x ∈ l, normType x.type = "IN" ∨ normType x.type = "OUT" :=
        fun x hx => h x (List.mem_cons_of_mem _ hx)
      rcases h t (List.mem_cons_self t l) with hIN | hOUT
      · have h1 : (normType t.type == "IN") = true := by rw [hIN]; decide
        have h2 : (normType t.type == "OUT") = false := by rw [hIN]; decide
        simp only [List.map_cons, List.sum_cons, List.filter_cons, h1, h2, ih hl,
          signedQty, isIN, if_true, if_false]
        simp only [Bool.false_eq_true, if_false, if_true, List.map_cons, List.sum_cons]
        ring
      · have h1 : (normType t.type == "IN") = false := by rw [hOUT]; decide
        have h2 : (normType t.type == "OUT") = true := by rw [hOUT]; decide
        simp only [List.map_cons, List.sum_cons, List.filter_cons, h1, h2, ih hl,
          signedQty, isIN, if_true, if_false]
        simp only [Bool.false_eq_true, if_false, if_true, List.map_cons, List.sum_cons]
        ring

/-! Claim theorems for the GET /api/items read path. -/

/-- C1: for every item, the quantity returned by listItems equals the signed
sum of the matched transactions' quantities — each quantity parsed as a
number with unparsable/missing treated as 0, added when the normalized type
is IN and subtracted when it is OUT — the sum is invariant under any
reordering of the transaction set, and an empty set yields 0. -/
theorem c1_primary_signed_sum (item : Item) (txns txns2 : List Txn)
    (hperm : txns.Perm txns2)
    (htypes : ∀ t ∈ matchedTxns item txns,
      normType t.type = "IN" ∨ normType t.type = "OUT") :
    (listItemQty item txns).1 =
        (((matchedTxns item txns).filter
            (fun t => normType t.type == "IN")).map txnQty).sum
          - (((matchedTxns item txns).filter
              (fun t => normType t.type == "OUT")).map txnQty).sum
      ∧ (listItemQty item txns).1 = (listItemQty item txns2).1
      ∧ (listItemQty item ([] : List Txn)).1 = 0 := by
  refine ⟨?_, ?_, by rw [listItemQty_fst, itemStats_eq]; simp [matchedTxns]⟩
  · rw [listItemQty_fst, itemStats_eq]
    exact sum_signed_eq_in_sub_out _ htypes
  · rw [listItemQty_fst, listItemQty_fst, itemStats_eq, itemStats_eq]
    exact ((hperm.filter _).map signedQty).sum_eq

/-- Witness for C1 at a concrete item and a reordered pair of transaction
lists. -/
theorem c1_primary_signed_sum_witness :
    (listItemQty ⟨0, "Oil", "kg", "-", some "5", 0⟩
        [⟨1, "d1", some "IN", "Oil", JsVal.num 10, JsVal.undef, JsVal.undef⟩,
         ⟨2, "d2", some "OUT", "Oil", JsVal.num 4, JsVal.undef, JsVal.undef⟩]).1 =
        (((matchedTxns ⟨0, "Oil", "kg", "-", some "5", 0⟩
            [⟨1, "d1", some "IN", "Oil", JsVal.num 10, JsVal.undef, JsVal.undef⟩,
             ⟨2, "d2", some "OUT", "Oil", JsVal.num 4, JsVal.undef, JsVal.undef⟩]).filter
            (fun t => normType t.type == "IN")).map txnQty).sum
          - (((matchedTxns ⟨0, "Oil", "kg", "-", some "5", 0⟩
              [⟨1, "d1", some "IN", "Oil", JsVal.num 10, JsVal.undef, JsVal.undef⟩,
               ⟨2, "d2", some "OUT", "Oil", JsVal.num 4, JsVal.undef, JsVal.undef⟩]).filter
              (fun t => normType t.type == "OUT")).map txnQty).sum
      ∧ (listItemQty ⟨0, "Oil", "kg", "-", some "5", 0⟩
          [⟨1, "d1", some "IN", "Oil", JsVal.num 10, JsVal.undef, JsVal.undef⟩,
           ⟨2, "d2", some "OUT", "Oil", JsVal.num 4, JsVal.undef, JsVal.undef⟩]).1 =
        (listItemQty ⟨0, "Oil", "kg", "-", some "5", 0⟩
          [⟨2, "d2", some "OUT", "Oil", JsVal.num 4, JsVal.undef, JsVal.undef⟩,
           ⟨1, "d1", some "IN", "Oil", JsVal.num 10, JsVal.undef, JsVal.undef⟩]).1
      ∧ (listItemQty ⟨0, "Oil", "kg", "-", some "5", 0⟩ ([] : List Txn)).1 = 0 :=
  c1_primary_signed_sum _ _ _ (by decide) (by decide)

/-- C2 counterexample: the claim asserts that item "Rice" matches a
transaction whose stored itemName is " rice ", but the matcher of
src/index.js trims only the item's name, not the stored itemName, and the
anchored regex rejects the surrounding spaces. -/
theorem c2_counterexample :
    (⟨1, "d", some "IN", " rice ", JsVal.num 1, JsVal.undef, JsVal.undef⟩ : Txn) ∉
      matchedTxns ⟨0, "Rice", "kg", "-", none, 0⟩
        [⟨1, "d", some "IN", " rice ", JsVal.num 1, JsVal.undef, JsVal.undef⟩] := by
  decide

/-- C2 amended: a transaction is matched iff its stored itemName — taken
verbatim, not trimmed — equals the item's trimmed name case-insensitively as
a whole string; "Rice" matches "rice" and "RICE" but neither " rice " nor
"Basmati Rice". -/
theorem c2_amended_matcher :
    (∀ (item : Item) (txns : List Txn) (t : Txn),
        t ∈ matchedTxns item txns ↔
          t ∈ txns ∧ strLower t.itemName = strLower (strTrim item.name))
      ∧ nameMatches "Rice" "rice" = true
      ∧ nameMatches "Rice" "RICE" = true
      ∧ nameMatches "Rice" " rice " = false
      ∧ nameMatches "Rice" "Basmati Rice" = false := by
  refine ⟨?_, by decide, by decide, by decide, by decide⟩
  intro item txns t
  simp [matchedTxns, List.mem_filter, nameMatches]

/-- C3: the altQuantity returned by listItems is the signed sum of the
matched transactions' altQty values, except that when this sum is exactly
zero, the primary quantity is non-zero and the item's factor parses as a
number, it is replaced by primaryQuantity × factor. -/
theorem c3_alt_hybrid (item : Item) (txns : List Txn) :
    (listItemQty item txns).2 =
      if (parseFactor item.factor).isSome
          ∧ ((matchedTxns item txns).map signedAlt).sum = 0
          ∧ ((matchedTxns item txns).map signedQty).sum ≠ 0
      then ((matchedTxns item txns).map signedQty).sum * (parseFactor item.factor).getD 0
      else ((matchedTxns item txns).map signedAlt).sum := by
  rw [listItemQty, itemStats_eq]
  cases hf : parseFactor item.factor with
  | none =>
      simp only [hf, Option.isSome_none, Bool.false_eq_true, false_and, if_false]
      split
      · rfl
      · rfl
  | some f =>
      have ht : strTruthy item.factor = true := parseFactor_truthy hf
      simp only [hf, Option.isSome_some, Option.getD_some, true_and]
      split
      · rename_i hcond
        rw [if_pos ⟨hcond.1, hcond.2.1⟩]
      · rename_i hcond
        rw [if_neg (fun hc => hcond ⟨hc.1, hc.2, by simp [ht]⟩)]

/-- C10: the hybrid fallback condition of the backup calculation in
src/index.js inspects only the item's factor, never its altUnit: the listed
quantities are invariant under any change of altUnit, and the fallback fires
even when altUnit is the sentinel "-". -/
theorem c10_altUnit_not_inspected :
    (∀ (item : Item) (u : String) (txns : List Txn),
        listItemQty { item with altUnit := u } txns = listItemQty item txns)
      ∧ (listItemQty ⟨0, "Oil", "kg", "-", some "5", 0⟩
          [⟨1, "d", some "IN", "Oil", JsVal.num 10, JsVal.undef, JsVal.undef⟩]).2 = 50 := by
  constructor
  · intro item u txns
    cases item
    rfl
  · rw [c3_alt_hybrid]
    rw [show matchedTxns ⟨0, "Oil", "kg", "-", some "5", 0⟩
          [⟨1, "d", some "IN", "Oil", JsVal.num 10, JsVal.undef, JsVal.undef⟩]
        = [⟨1, "d", some "IN", "Oil", JsVal.num 10, JsVal.undef, JsVal.undef⟩] from by decide]
    rw [show parseFactor (⟨0, "Oil", "kg", "-", some "5", 0⟩ : Item).factor = some 5 from by
      decide]
    simp only [List.map_cons, List.map_nil, List.sum_cons, List.sum_nil]
    rw [show signedAlt ⟨1, "d", some "IN", "Oil", JsVal.num 10, JsVal.undef, JsVal.undef⟩
        = 0 from by decide]
    rw [show signedQty ⟨1, "d", some "IN", "Oil", JsVal.num 10, JsVal.undef, JsVal.undef⟩
        = 10 from by decide]
    norm_num

/-- C7 counterexample: the claim asserts that an unrecognized type (neither
IN nor OUT after normalization) is treated as IN, i.e. added; but the reduce
of src/index.js subtracts the quantity for every normalized type other than
"IN", so a type "XYZ" with quantity 5 yields −5, not +5. -/
theorem c7_counterexample :
    (itemStats ⟨0, "Rice", "kg", "-", none, 0⟩
        [⟨1, "d", some "XYZ", "Rice", JsVal.num 5, JsVal.undef, JsVal.undef⟩]).1 = -5
      ∧ ((-5 : ℚ) ≠ 5) := by
  constructor
  · rw [itemStats_eq]
    rw [show matchedTxns ⟨0, "Rice", "kg", "-", none, 0⟩
          [⟨1, "d", some "XYZ", "Rice", JsVal.num 5, JsVal.undef, JsVal.undef⟩]
        = [⟨1, "d", some "XYZ", "Rice", JsVal.num 5, JsVal.undef, JsVal.undef⟩] from by decide]
    simp only [List.map_cons, List.map_nil, List.sum_cons, List.sum_nil]
    rw [show signedQty ⟨1, "d", some "XYZ", "Rice", JsVal.num 5, JsVal.undef, JsVal.undef⟩
        = -5 from by decide]
    norm_num
  · norm_num

/-- C7 amended: the type field is uppercase/trim normalized on read and an
absent or empty type defaults to IN (quantity added); but a present type
that does not normalize to "IN" — including unrecognized values — is
treated as OUT, i.e. its quantity is subtracted. -/
theorem c7_amended_type_normalization (t : Txn) :
    (t.type = none → signedQty t = txnQty t)
      ∧ (t.type = some "" → signedQty t = txnQty t)
      ∧ (∀ s, t.type = some s → s ≠ "" → normType t.type = strTrim (strUpper s))
      ∧ (∀ s, t.type = some s → s ≠ "" → strTrim (strUpper s) ≠ "IN" →
          signedQty t = -txnQty t)
      ∧ (normType t.type = "IN" → signedQty t = txnQty t) := by
  refine ⟨?_, ?_, ?_, ?_, ?_⟩
  · intro h
    simp [signedQty, isIN, normType, h]
  · intro h
    simp [signedQty, isIN, normType, h]
  · intro s hs hne
    simp [normType, hs, hne]
  · intro s hs hne hnin
    have : isIN t = false := by
      simp [isIN, normType, hs, hne]
      exact hnin
    simp [signedQty, this]
  · intro h
    have : isIN t = true := by simp [isIN, h]
    simp [signedQty, this]

/-- Witness for C7 amended at the concrete unrecognized type "XYZ". -/
theorem c7_amended_type_normalization_witness :
    signedQty ⟨1, "d", some "XYZ", "Rice", JsVal.num 5, JsVal.undef, JsVal.undef⟩ =
      -txnQty ⟨1, "d", some "XYZ", "Rice", JsVal.num 5, JsVal.undef, JsVal.undef⟩ :=
  (c7_amended_type_normalization _).2.2.2.1 "XYZ" rfl (by decide) (by decide)

/-- C8 counterexample: the claim asserts every aggregation coercion extracts
the LEADING numeric portion, so a value with no leading number coerces to 0;
but the altQty coercion of src/index.js first deletes every non-numeric
character anywhere, so "box 50" coerces to 50, not 0 (the plain parseFloat
path of part_002 does give 0). -/
theorem c8_counterexample :
    altCoerceClean "box 50" = 50 ∧ altParsePlain "box 50" = 0 := by decide

/-- C8 amended: both aggregation coercions are total and default to 0 when
the value holds no digits at all; the part_002 coercion extracts the leading
numeric portion ("50 box" → 50), while the index.js altQty coercion deletes
every character except digits, dots and minus signs before parsing, so it
also accepts decoration before the number ("box 50" → 50). -/
theorem c8_amended_coercions (s : String) (hnd : ∀ c ∈ s.data, c.isDigit = false) :
    altCoerceClean s = 0 ∧ altParsePlain s = 0
      ∧ altCoerceClean "50 box" = 50 ∧ altParsePlain "50 box" = 50
      ∧ altCoerceClean "box 50" = 50 := by
  refine ⟨?_, ?_, by decide, by decide, by decide⟩
  · have h : ∀ c ∈ (cleanNumStr s).data, c.isDigit = false := by
      intro c hc
      have := List.mem_filter.mp (hc : c ∈ (s.data.filter _))
      exact hnd c this.1
    rw [altCoerceClean, jsParseFloat,
      parseSignedNum_no_digit _ (fun c hc => h c (dropWhile_subset hc))]
    rfl
  · rw [altParsePlain, jsParseFloat,
      parseSignedNum_no_digit _ (fun c hc => hnd c (dropWhile_subset hc))]
    rfl

/-- Witness for C8 amended at the digit-free string "abc". -/
theorem c8_amended_coercions_witness :
    altCoerceClean "abc" = 0 ∧ altParsePlain "abc" = 0
      ∧ altCoerceClean "50 box" = 50 ∧ altParsePlain "50 box" = 50
      ∧ altCoerceClean "box 50" = 50 :=
  c8_amended_coercions "abc" (by decide)

/-- Membership is preserved by the date-descending insertion. -/
theorem mem_insertByDate {t u : Txn} {l : List Txn} :
    u ∈ insertByDate t l ↔ u = t ∨ u ∈ l := by
  induction l with
  | nil => simp [insertByDate]
  | cons v vs ih =>
      rw [insertByDate]
      split
      · simp only [List.mem_cons, ih]
        tauto
      · simp only [List.mem_cons]

/-- The transaction listing holds exactly the stored transactions. -/
theorem mem_listTransactions {u : Txn} {s : Store} :
    u ∈ listTransactions s ↔ u ∈ s.txns := by
  rw [listTransactions]
  induction s.txns with
  | nil => simp
  | cons t ts ih => simp [List.foldr_cons, mem_insertByDate, ih]

/-- C6: deleting an existing item answers success, removes every transaction
whose itemName equals the item's name (so the subsequent listing holds
none), and the end state equals the one where the item record is removed
before its transactions. -/
theorem c6_delete_cascade (s : Store) (i : Nat) (it : Item)
    (hfind : s.items.find? (fun x => x.id == i) = some it) :
    (deleteItem s i).1 = Resp.ok
      ∧ (∀ t ∈ listTransactions (deleteItem s i).2, t.itemName ≠ it.name)
      ∧ (deleteItem s i).2 = removeTxnsByName (removeItemById s i) it.name := by
  refine ⟨?_, ?_, ?_⟩
  · rw [deleteItem, hfind]
  · intro t ht
    rw [deleteItem, hfind] at ht
    have := List.mem_filter.mp (mem_listTransactions.mp ht)
    simpa using this.2
  · rw [deleteItem, hfind]
    exact rfl

/-- Witness for C6 at a concrete store holding "Sugar" and "Salt"
transactions. -/
theorem c6_delete_cascade_witness :
    (deleteItem ⟨[⟨1, "Sugar", "kg", "-", none, 0⟩],
        [⟨1, "d1", some "IN", "Sugar", JsVal.num 3, JsVal.undef, JsVal.undef⟩,
         ⟨2, "d2", some "IN", "Salt", JsVal.num 4, JsVal.undef, JsVal.undef⟩]⟩ 1).1 = Resp.ok
      ∧ (∀ t ∈ listTransactions (deleteItem ⟨[⟨1, "Sugar", "kg", "-", none, 0⟩],
          [⟨1, "d1", some "IN", "Sugar", JsVal.num 3, JsVal.undef, JsVal.undef⟩,
           ⟨2, "d2", some "IN", "Salt", JsVal.num 4, JsVal.undef, JsVal.undef⟩]⟩ 1).2,
          t.itemName ≠ "Sugar")
      ∧ (deleteItem ⟨[⟨1, "Sugar", "kg", "-", none, 0⟩],
          [⟨1, "d1", some "IN", "Sugar", JsVal.num 3, JsVal.undef, JsVal.undef⟩,
           ⟨2, "d2", some "IN", "Salt", JsVal.num 4, JsVal.undef, JsVal.undef⟩]⟩ 1).2
        = removeTxnsByName (removeItemById ⟨[⟨1, "Sugar", "kg", "-", none, 0⟩],
            [⟨1, "d1", some "IN", "Sugar", JsVal.num 3, JsVal.undef, JsVal.undef⟩,
             ⟨2, "d2", some "IN", "Salt", JsVal.num 4, JsVal.undef, JsVal.undef⟩]⟩ 1)
            "Sugar" :=
  c6_delete_cascade _ 1 ⟨1, "Sugar", "kg", "-", none, 0⟩ (by decide)

/-- C9 counterexample: the claim asserts a NotFoundError is surfaced when an
operation targets a nonexistent identifier, but DELETE /api/items/:id and
DELETE /api/transactions/:id of src/index.js answer their plain success
message when the id does not exist. -/
theorem c9_counterexample :
    deleteItem ⟨[], []⟩ 1 = (Resp.ok, (⟨[], []⟩ : Store))
      ∧ deleteTransaction ⟨[], []⟩ 1 = (Resp.ok, (⟨[], []⟩ : Store)) := by decide

/-- C9 amended: an operation on a nonexistent identifier never changes the
store; the two update routes surface a caught 400 error, while the two
delete routes answer success as if the delete had happened. -/
theorem c9_amended_missing_id (s : Store) (i : Nat) (fi : ItemFields) (ft : TxnFields)
    (hitem : ∀ it ∈ s.items, it.id ≠ i) (htxn : ∀ t ∈ s.txns, t.id ≠ i) :
    renameOrUpdateItem s i fi = (Resp.err400, s)
      ∧ deleteItem s i = (Resp.ok, s)
      ∧ updateTransaction s i ft = (Resp.err400, s)
      ∧ deleteTransaction s i = (Resp.ok, s) := by
  have hfind : s.items.find? (fun it => it.id == i) = none := by
    rw [List.find?_eq_none]
    intro it hit
    simp [hitem it hit]
  have hany : s.txns.any (fun t => t.id == i) = false := by
    rw [List.any_eq_false]
    intro t ht
    simp [htxn t ht]
  have hfilter : s.txns.filter (fun t => !(t.id == i)) = s.txns := by
    rw [List.filter_eq_self]
    intro t ht
    simp [htxn t ht]
  refine ⟨?_, ?_, ?_, ?_⟩
  · rw [renameOrUpdateItem, hfind]
  · rw [deleteItem, hfind]
  · rw [updateTransaction, hany]
    rfl
  · rw [deleteTransaction, hfilter]

/-- Witness for C9 amended at the empty store. -/
theorem c9_amended_missing_id_witness :
    renameOrUpdateItem ⟨[], []⟩ 1 ⟨"A", "kg", "-", none, 0⟩
        = (Resp.err400, (⟨[], []⟩ : Store))
      ∧ deleteItem ⟨[], []⟩ 1 = (Resp.ok, (⟨[], []⟩ : Store))
      ∧ updateTransaction ⟨[], []⟩ 1 ⟨"d", some "IN", "A", JsVal.num 1, JsVal.undef, JsVal.undef⟩
        = (Resp.err400, (⟨[], []⟩ : Store))
      ∧ deleteTransaction ⟨[], []⟩ 1 = (Resp.ok, (⟨[], []⟩ : Store)) :=
  c9_amended_missing_id ⟨[], []⟩ 1 ⟨"A", "kg", "-", none, 0⟩
    ⟨"d", some "IN", "A", JsVal.num 1, JsVal.undef, JsVal.undef⟩ (by decide) (by decide)

/-- A factor that parses to a number is neither the sentinel "Manual" nor
"-". -/
theorem parseFactor_ne_sentinels {g : Option String} {fac : ℚ}
    (h : parseFactor g = some fac) :
    (g == some "Manual") = false ∧ (g == some "-") = false := by
  constructor
  · rw [beq_eq_false_iff_ne]
    intro hg
    rw [hg, show parseFactor (some "Manual") = none from by decide] at h
    exact Option.noConfusion h
  · rw [beq_eq_false_iff_ne]
    intro hg
    rw [hg, show parseFactor (some "-") = none from by decide] at h
    exact Option.noConfusion h

/-- C4 counterexample: the claim asserts both transaction write routes apply
the alternate-quantity fill, but POST /api/transactions of src/index.js
persists the submitted fields as they are: with altQty omitted and an item
"X" of factor "5", the persisted altQty stays absent instead of the filled
quantity × factor. -/
theorem c4_counterexample :
    (createTransaction ⟨[⟨1, "X", "kg", "box", some "5", 0⟩], []⟩ 2
        ⟨"d", some "IN", "X", JsVal.num 10, JsVal.undef, JsVal.undef⟩).2.txns
      = [⟨2, "d", some "IN", "X", JsVal.num 10, JsVal.undef, JsVal.undef⟩]
    ∧ (⟨2, "d", some "IN", "X", JsVal.num 10, JsVal.undef, JsVal.undef⟩ : Txn).altQty
      ≠ JsVal.num 50 := by decide

/-- C4 amended: in the generation of the backend holding calculateAltQty
(src/unnamed/part_001), POST and PUT /api/transactions persist the submitted
body with altQty overwritten by the fill, and the fill satisfies the claimed
cases: a truthy numeric non-zero submitted altQty is kept verbatim;
otherwise, when the exact-named item exists and its factor parses to a
number, the fill is quantity × factor, and 0 when the factor does not parse
or the item is missing.  The current src/index.js routes apply no fill. -/
theorem c4_amended_fill (s : Store) (newId tid : Nat) (f : TxnFields) :
    ((createTransactionCalc s newId f).2.txns
        = s.txns ++ [mkTxn newId { f with altQty := numToVal (calculateAltQty s.items f) }])
      ∧ (s.txns.any (fun t => t.id == tid) = true →
          (mkTxn tid { f with altQty := numToVal (calculateAltQty s.items f) })
            ∈ (updateTransactionCalc s tid f).2.txns)
      ∧ (∀ q : ℚ, jsNumber f.altQty = some q → q ≠ 0 → f.altQty.truthy = true →
          calculateAltQty s.items f = some q)
      ∧ ((f.altQty.truthy = false ∨ jsNumber f.altQty = some 0) →
          ∀ item : Item, s.items.find? (fun it => it.name == f.itemName) = some item →
            (∀ fac : ℚ, parseFactor item.factor = some fac →
                calculateAltQty s.items f
                  = some (((parseFloatVal f.quantity).getD 0) * fac))
              ∧ (parseFactor item.factor = none → calculateAltQty s.items f = some 0))
      ∧ ((f.altQty.truthy = false ∨ jsNumber f.altQty = some 0) →
          s.items.find? (fun it => it.name == f.itemName) = none →
          calculateAltQty s.items f = some 0) := by
  refine ⟨rfl, ?_, ?_, ?_, ?_⟩
  · intro hany
    obtain ⟨t, ht, htid⟩ := List.any_eq_true.mp hany
    rw [updateTransactionCalc, if_pos hany]
    exact List.mem_map.mpr ⟨t, ht, by rw [if_pos htid]⟩
  · intro q hq hq0 htr
    rw [calculateAltQty, if_pos]
    · exact hq
    · simp [htr, hq, hq0]
  · intro hz item hfind
    have hcond : (f.altQty.truthy && !(jsNumber f.altQty == some 0)) = false := by
      rcases hz with h | h
      · simp [h]
      · simp [h]
    constructor
    · intro fac hfac
      have ht : strTruthy item.factor = true := parseFactor_truthy hfac
      have hs := parseFactor_ne_sentinels hfac
      rw [calculateAltQty, hcond, hfind]
      simp only [Bool.false_eq_true, if_false, ht, hs.1, hs.2, Bool.not_false,
        Bool.and_true, Bool.true_and, if_true, hfac]
    · intro hfac
      rw [calculateAltQty, hcond, hfind]
      simp only [Bool.false_eq_true, if_false]
      split
      · rw [hfac]
      · rfl
  · intro hz hfind
    have hcond : (f.altQty.truthy && !(jsNumber f.altQty == some 0)) = false := by
      rcases hz with h | h
      · simp [h]
      · simp [h]
    rw [calculateAltQty, hcond, hfind]
    rfl

/-- Witness for C4 amended: with item "X" of factor "5" and a submitted
quantity of 10 with no altQty, the persisted transaction carries the fill
and the fill equals 50. -/
theorem c4_amended_fill_witness :
    ((createTransactionCalc ⟨[⟨1, "X", "kg", "box", some "5", 0⟩], []⟩ 2
        ⟨"d", some "IN", "X", JsVal.num 10, JsVal.undef, JsVal.undef⟩).2.txns
      = [mkTxn 2 ⟨"d", some "IN", "X", JsVal.num 10,
          numToVal (calculateAltQty [⟨1, "X", "kg", "box", some "5", 0⟩]
            ⟨"d", some "IN", "X", JsVal.num 10, JsVal.undef, JsVal.undef⟩), JsVal.undef⟩])
    ∧ calculateAltQty [⟨1, "X", "kg", "box", some "5", 0⟩]
        ⟨"d", some "IN", "X", JsVal.num 10, JsVal.undef, JsVal.undef⟩ = some 50 := by
  constructor
  · exact (c4_amended_fill ⟨[⟨1, "X", "kg", "box", some "5", 0⟩], []⟩ 2 1
      ⟨"d", some "IN", "X", JsVal.num 10, JsVal.undef, JsVal.undef⟩).1
  · have h := (c4_amended_fill ⟨[⟨1, "X", "kg", "box", some "5", 0⟩], []⟩ 2 1
        ⟨"d", some "IN", "X", JsVal.num 10, JsVal.undef, JsVal.undef⟩).2.2.2.1
      (Or.inl (by decide)) ⟨1, "X", "kg", "box", some "5", 0⟩ (by decide)
    rw [h.1 5 (by decide)]
    norm_num [parseFloatVal]

/-- The signed primary contribution ignores the stored itemName. -/
theorem signedQty_rename (t : Txn) (n : String) :
    signedQty { t with itemName := n } = signedQty t := rfl

/-- C5 counterexample: the claim asserts the aggregate primary quantity is
unchanged across a rename, but the rename cascade of src/index.js rewrites
only transactions whose stored itemName equals the old name EXACTLY, while
the read path matches fuzzily: a transaction stored as "salt" counts for
item "Salt" (quantity 10) before the rename, is not rewritten by the rename
to "Sea Salt", and counts 0 for the renamed item afterwards. -/
theorem c5_counterexample :
    (listItemQty ⟨1, "Salt", "kg", "-", some "Manual", 0⟩
        [⟨1, "d", some "IN", "salt", JsVal.num 10, JsVal.undef, JsVal.undef⟩]).1 = 10
      ∧ (renameOrUpdateItem
          ⟨[⟨1, "Salt", "kg", "-", some "Manual", 0⟩],
           [⟨1, "d", some "IN", "salt", JsVal.num 10, JsVal.undef, JsVal.undef⟩]⟩
          1 ⟨"Sea Salt", "kg", "-", some "Manual", 0⟩).2.txns
        = [⟨1, "d", some "IN", "salt", JsVal.num 10, JsVal.undef, JsVal.undef⟩]
      ∧ (listItemQty ⟨1, "Sea Salt", "kg", "-", some "Manual", 0⟩
          [⟨1, "d", some "IN", "salt", JsVal.num 10, JsVal.undef, JsVal.undef⟩]).1 = 0
      ∧ (10 : ℚ) ≠ 0 := by
  refine ⟨?_, by decide, ?_, by norm_num⟩
  · rw [listItemQty_fst, itemStats_eq]
    rw [show matchedTxns ⟨1, "Salt", "kg", "-", some "Manual", 0⟩
          [⟨1, "d", some "IN", "salt", JsVal.num 10, JsVal.undef, JsVal.undef⟩]
        = [⟨1, "d", some "IN", "salt", JsVal.num 10, JsVal.undef, JsVal.undef⟩] from by decide]
    simp only [List.map_cons, List.map_nil, List.sum_cons, List.sum_nil]
    rw [show signedQty ⟨1, "d", some "IN", "salt", JsVal.num 10, JsVal.undef, JsVal.undef⟩
        = 10 from by decide]
    norm_num
  · rw [listItemQty_fst, itemStats_eq]
    rw [show matchedTxns ⟨1, "Sea Salt", "kg", "-", some "Manual", 0⟩
          [⟨1, "d", some "IN", "salt", JsVal.num 10, JsVal.undef, JsVal.undef⟩]
        = [] from by decide]
    rfl

/-- Rewriting the exactly-matching names preserves the fuzzy-matched signed
quantities, provided fuzzy matching of the old name coincides with exact
equality on the list and no other transaction fuzzily matches the new
name. -/
theorem c5_filter_map (old new : String) (hclean : strTrim new = new)
    (l : List Txn)
    (hexact : ∀ t ∈ l, nameMatches old t.itemName = true ↔ t.itemName = old)
    (hnew : ∀ t ∈ l, t.itemName ≠ old → nameMatches new t.itemName = false) :
    ((l.map (fun t =>
        if t.itemName == old then { t with itemName := new } else t)).filter
          (fun t => nameMatches new t.itemName)).map signedQty
      = (l.filter (fun t => nameMatches old t.itemName)).map signedQty := by
  induction l with
  | nil => rfl
  | cons t ts ih =>
      have ihh := ih (fun x hx => hexact x (List.mem_cons_of_mem _ hx))
        (fun x hx => hnew x (List.mem_cons_of_mem _ hx))
      by_cases hname : t.itemName = old
      · have hmatch : nameMatches new new = true := by
          rw [nameMatches, hclean]
          exact beq_self_eq_true _
        have hold : nameMatches old t.itemName = true :=
          (hexact t (List.mem_cons_self t ts)).mpr hname
        have hbeq : (t.itemName == old) = true := beq_iff_eq.mpr hname
        simp only [List.map_cons, List.filter_cons, hbeq, if_true, hold, hmatch, ihh,
          signedQty_rename]
      · have hq : nameMatches old t.itemName = false := by
          cases hcase : nameMatches old t.itemName with
          | false => rfl
          | true => exact absurd ((hexact t (List.mem_cons_self t ts)).mp hcase) hname
        have hp : nameMatches new t.itemName = false :=
          hnew t (List.mem_cons_self t ts) hname
        have hbeq : (t.itemName == old) = false := beq_eq_false_iff_ne.mpr hname
        simp only [List.map_cons, List.filter_cons, hbeq, Bool.false_eq_true, if_false,
          hq, hp, ihh]

/-- C5 amended: renaming an existing item answers success, rewrites exactly
the transactions stored under the old name (none remains under it), and the
aggregate primary quantity is preserved PROVIDED the new name carries no
surrounding whitespace, every transaction fuzzily matching the old name
stores it exactly, and no other transaction fuzzily matches the new name. -/
theorem c5_amended_rename (s : Store) (i : Nat) (f : ItemFields) (old : Item)
    (hfind : s.items.find? (fun it => it.id == i) = some old)
    (hneq : old.name ≠ f.name)
    (hclean : strTrim f.name = f.name)
    (hexact : ∀ t ∈ s.txns,
      nameMatches old.name t.itemName = true ↔ t.itemName = old.name)
    (hnew : ∀ t ∈ s.txns,
      t.itemName ≠ old.name → nameMatches f.name t.itemName = false) :
    (renameOrUpdateItem s i f).1 = Resp.ok
      ∧ (∀ t ∈ (renameOrUpdateItem s i f).2.txns, t.itemName ≠ old.name)
      ∧ (∀ t ∈ s.txns, t.itemName = old.name →
          ({ t with itemName := f.name } : Txn) ∈ (renameOrUpdateItem s i f).2.txns)
      ∧ (listItemQty (applyItemFields old f) (renameOrUpdateItem s i f).2.txns).1
          = (listItemQty old s.txns).1 := by
  have htxns : (renameOrUpdateItem s i f).2.txns
      = s.txns.map (fun t =>
          if t.itemName == old.name then { t with itemName := f.name } else t) := by
    rw [renameOrUpdateItem, hfind]
    simp only []
    rw [if_pos hneq]
  refine ⟨?_, ?_, ?_, ?_⟩
  · rw [renameOrUpdateItem, hfind]
  · intro t ht
    rw [htxns] at ht
    obtain ⟨u, hu, heq⟩ := List.mem_map.mp ht
    by_cases hb : u.itemName = old.name
    · rw [if_pos (beq_iff_eq.mpr hb)] at heq
      rw [← heq]
      exact fun hcon => hneq hcon.symm
    · rw [if_neg (by simpa using hb)] at heq
      rw [← heq]
      exact hb
  · intro t ht hname
    rw [htxns]
    exact List.mem_map.mpr ⟨t, ht, by rw [if_pos (beq_iff_eq.mpr hname)]⟩
  · rw [htxns, listItemQty_fst, listItemQty_fst, itemStats_eq, itemStats_eq]
    rw [matchedTxns, matchedTxns]
    rw [show (applyItemFields old f).name = f.name from rfl]
    exact congrArg List.sum (c5_filter_map old.name f.name hclean s.txns hexact hnew)

/-- Witness for C5 amended: renaming "Salt" to "Sea Salt" over a ledger
whose single transaction stores "Salt" exactly. -/
theorem c5_amended_rename_witness :
    (renameOrUpdateItem ⟨[⟨1, "Salt", "kg", "-", some "Manual", 0⟩],
        [⟨1, "d", some "IN", "Salt", JsVal.num 10, JsVal.undef, JsVal.undef⟩]⟩
        1 ⟨"Sea Salt", "kg", "-", some "Manual", 0⟩).1 = Resp.ok
      ∧ (∀ t ∈ (renameOrUpdateItem ⟨[⟨1, "Salt", "kg", "-", some "Manual", 0⟩],
          [⟨1, "d", some "IN", "Salt", JsVal.num 10, JsVal.undef, JsVal.undef⟩]⟩
          1 ⟨"Sea Salt", "kg", "-", some "Manual", 0⟩).2.txns, t.itemName ≠ "Salt")
      ∧ (∀ t ∈ (⟨[⟨1, "Salt", "kg", "-", some "Manual", 0⟩],
          [⟨1, "d", some "IN", "Salt", JsVal.num 10, JsVal.undef, JsVal.undef⟩]⟩ : Store).txns,
          t.itemName = "Salt" →
          ({ t with itemName := "Sea Salt" } : Txn)
            ∈ (renameOrUpdateItem ⟨[⟨1, "Salt", "kg", "-", some "Manual", 0⟩],
                [⟨1, "d", some "IN", "Salt", JsVal.num 10, JsVal.undef, JsVal.undef⟩]⟩
                1 ⟨"Sea Salt", "kg", "-", some "Manual", 0⟩).2.txns)
      ∧ (listItemQty (applyItemFields ⟨1, "Salt", "kg", "-", some "Manual", 0⟩
            ⟨"Sea Salt", "kg", "-", some "Manual", 0⟩)
          (renameOrUpdateItem ⟨[⟨1, "Salt", "kg", "-", some "Manual", 0⟩],
            [⟨1, "d", some "IN", "Salt", JsVal.num 10, JsVal.undef, JsVal.undef⟩]⟩
            1 ⟨"Sea Salt", "kg", "-", some "Manual", 0⟩).2.txns).1
        = (listItemQty ⟨1, "Salt", "kg", "-", some "Manual", 0⟩
            [⟨1, "d", some "IN", "Salt", JsVal.num 10, JsVal.undef, JsVal.undef⟩]).1 :=
  c5_amended_rename ⟨[⟨1, "Salt", "kg", "-", some "Manual", 0⟩],
      [⟨1, "d", some "IN", "Salt", JsVal.num 10, JsVal.undef, JsVal.undef⟩]⟩
    1 ⟨"Sea Salt", "kg", "-", some "Manual", 0⟩ ⟨1, "Salt", "kg", "-", some "Manual", 0⟩
    (by decide) (by decide) (by decide) (by decide) (by decide)

end Inventory
